import Mathlib

/-!
Shallow embedding of the fetch MCP server
(`src/packages/fetch/src/index.ts`): the content classifier inside
`fetchUrl`, the extraction wrapper `extractContentFromHtml`, and the
pagination arithmetic of the `fetch` tool handler.

JavaScript strings are modelled as `List Char`; `s.slice(a, a+n)`,
`s.substring(0, n)` and `a.includes(b)` become `(s.drop a).take n`,
`s.take n` and `includesJS a b`.
-/

namespace FetchMCP

/-- A JavaScript string, modelled as its list of characters. -/
abbrev JSString := List Char

/-- `content.slice(start_index, start_index + max_length)` for the
non-negative arguments the handler passes (zod enforces
`start_index ≥ 0`). -/
def sliceJS (s : JSString) (start len : Nat) : JSString :=
  (s.drop start).take len

/-- The sentinel string of lines 128/132 of the handler:
`"<error>No more content available.</error>"`. -/
def noMoreContent : JSString :=
  "<error>No more content available.</error>".toList

/-- The continuation instruction appended at line 141 of the handler. -/
def continuationMsg (nextStart : Nat) : JSString :=
  ("\n\n<error>Content truncated. Call the fetch tool with a start_index of "
    ++ toString nextStart ++ " to get more content.</error>").toList

/-- Result of the pagination block (lines 124-144): `text` is the
`finalContent` string the code builds; `isSentinel`, `slice` and
`continuation` record which branch produced it (`slice` is the source
variable `truncatedContent`, empty on the sentinel branches). -/
structure PaginatedOutput where
  text : JSString
  isSentinel : Bool
  slice : JSString
  continuation : Option Nat
  deriving DecidableEq, Repr

/-- Lines 124-144 of the tool handler: computes `finalContent` from the
fetched `content`, `start_index` and `max_length`.  `remainingContent`
is computed over the integers, as JavaScript numbers are. -/
def paginate (content : JSString) (start_index max_length : Nat) : PaginatedOutput :=
  let originalLength := content.length
  if start_index ≥ originalLength then
    { text := noMoreContent, isSentinel := true, slice := [], continuation := none }
  else
    let truncatedContent := sliceJS content start_index max_length
    if truncatedContent = [] then
      { text := noMoreContent, isSentinel := true, slice := [], continuation := none }
    else
      let actualContentLength := truncatedContent.length
      let remainingContent : Int :=
        (originalLength : Int) - ((start_index : Int) + (actualContentLength : Int))
      if actualContentLength = max_length ∧ 0 < remainingContent then
        { text := truncatedContent ++ continuationMsg (start_index + actualContentLength),
          isSentinel := false,
          slice := truncatedContent,
          continuation := some (start_index + actualContentLength) }
      else
        { text := truncatedContent,
          isSentinel := false,
          slice := truncatedContent,
          continuation := none }

/-- JavaScript `haystack.includes(needle)`: the needle occurs as a
contiguous substring of the haystack. -/
def includesJS (haystack needle : JSString) : Bool :=
  decide (needle <:+: haystack)

/-- The content-type classification of lines 78-80: the body check
`pageRaw.substring(0, 100).includes("<html")`, or-ed with
`contentType.includes("text/html")`, or-ed with `!contentType`. -/
def isPageHtml (pageRaw contentType : JSString) : Bool :=
  includesJS (pageRaw.take 100) "<html".toList
    || includesJS contentType "text/html".toList
    || contentType = ([] : JSString)

/-- The two-valued content kind the spec calls `ContentKind`. -/
inductive ContentKind
  | Markup
  | Other
  deriving DecidableEq, Repr

/-- The classifier: `Markup` exactly when `isPageHtml` holds. -/
def classify (pageRaw contentType : JSString) : ContentKind :=
  if isPageHtml pageRaw contentType then ContentKind.Markup else ContentKind.Other

/-- Marker returned at line 36 when Readability finds no article. -/
def noCandidateMarker : JSString :=
  "<error>Page failed to be simplified from HTML</error>".toList

/-- Marker returned by the catch block at line 55. -/
def extractionFailedMarker : JSString :=
  "<error>Failed to extract content from HTML</error>".toList

/-- Outcome of the external JSDOM / Readability / Turndown pipeline that
`extractContentFromHtml` drives (those libraries are dependencies, not
repository code): either some stage threw, or `reader.parse()` yielded
no article (or one with falsy `content`), or Turndown produced markdown. -/
inductive ExtractionPipelineOutcome
  | threw
  | noArticle
  | markdown (md : JSString)
  deriving DecidableEq, Repr

/-- `extractContentFromHtml` (lines 18-57): the catch block maps any
thrown exception to `extractionFailedMarker`; a missing article maps to
`noCandidateMarker`; otherwise the converted markdown is returned. -/
def extractContentFromHtml : ExtractionPipelineOutcome → JSString
  | ExtractionPipelineOutcome.threw => extractionFailedMarker
  | ExtractionPipelineOutcome.noArticle => noCandidateMarker
  | ExtractionPipelineOutcome.markdown md => md

/-- The prefix attached at line 89 when content is not simplified. -/
def rawContentNote (contentType : JSString) : JSString :=
  "Content type ".toList ++ contentType
    ++ " cannot be simplified to markdown, but here is the raw content:\n".toList

/-- Lines 74-90 of `fetchUrl`, after the response arrived: given the
body, the declared content type, the `forceRaw` flag and the outcome of
the external extraction pipeline, produce the `[content, prefix]` pair. -/
def fetchUrlContent (pageRaw contentType : JSString) (forceRaw : Bool)
    (extraction : ExtractionPipelineOutcome) : JSString × JSString :=
  if isPageHtml pageRaw contentType && !forceRaw then
    (extractContentFromHtml extraction, [])
  else
    (pageRaw, rawContentNote contentType)

/-- The request fields of the `fetch` tool after zod parsing, together
with the protocol of the parsed URL (`urlObj.protocol`, e.g. `"http:"`). -/
structure FetchRequest where
  protocol : JSString
  url : JSString
  max_length : Nat
  start_index : Nat
  raw : Bool

/-- What the network and the external extraction libraries would supply
on a successful fetch; the handler is a pure function of this. -/
structure NetworkResult where
  pageRaw : JSString
  contentType : JSString
  extraction : ExtractionPipelineOutcome

/-- The message of the error thrown at line 117. -/
def schemeErrorMsg : JSString :=
  "Only HTTP and HTTPS URLs are supported".toList

/-- A tool response: the single text payload and the `isError` flag. -/
structure ToolResponse where
  text : JSString
  isError : Bool
  deriving DecidableEq, Repr

/-- Lines 112-161 of the `fetch` tool handler for the case where the
network request itself succeeds: scheme validation, then the
classification of `fetchUrl`, then pagination, wrapped as
`${prefix}Contents of ${url}:\n${finalContent}`.  An invalid scheme
throws before `fetchUrl` runs, so the response is built without
consulting `net`. -/
def fetchToolHandler (req : FetchRequest) (net : NetworkResult) : ToolResponse :=
  if ¬(req.protocol = "http:".toList ∨ req.protocol = "https:".toList) then
    { text := "Failed to fetch content: ".toList ++ schemeErrorMsg, isError := true }
  else
    let res := fetchUrlContent net.pageRaw net.contentType req.raw net.extraction
    let out := paginate res.1 req.start_index req.max_length
    { text := res.2 ++ "Contents of ".toList ++ req.url ++ ":\n".toList ++ out.text,
      isError := false }

theorem sliceJS_length (s : JSString) (start len : Nat) :
    (sliceJS s start len).length = min len (s.length - start) := by
  simp [sliceJS]

theorem sliceJS_ne_nil {s : JSString} {start len : Nat}
    (hs : start < s.length) (hl : 1 ≤ len) : sliceJS s start len ≠ [] := by
  have h := sliceJS_length s start len
  intro hnil
  rw [hnil] at h
  simp only [List.length_nil] at h
  omega

theorem sliceJS_eq_nil_of_le {s : JSString} {start len : Nat}
    (hs : s.length ≤ start) : sliceJS s start len = [] := by
  simp [sliceJS, List.drop_eq_nil_of_le hs]

theorem paginate_of_le {text : JSString} {s m : Nat} (h : text.length ≤ s) :
    paginate text s m =
      { text := noMoreContent, isSentinel := true, slice := [], continuation := none } := by
  simp only [paginate]
  rw [if_pos (by omega : s ≥ List.length text)]

theorem paginate_of_nil {text : JSString} {s m : Nat} (hs : s < text.length)
    (hempty : sliceJS text s m = []) :
    paginate text s m =
      { text := noMoreContent, isSentinel := true, slice := [], continuation := none } := by
  simp only [paginate]
  rw [if_neg (by omega : ¬ s ≥ List.length text), if_pos hempty]

theorem paginate_of_lt {text : JSString} {s m : Nat} (hs : s < text.length)
    (hne : sliceJS text s m ≠ []) :
    paginate text s m =
      if (sliceJS text s m).length = m ∧ s + (sliceJS text s m).length < text.length then
        { text := sliceJS text s m ++ continuationMsg (s + (sliceJS text s m).length),
          isSentinel := false, slice := sliceJS text s m,
          continuation := some (s + (sliceJS text s m).length) }
      else
        { text := sliceJS text s m, isSentinel := false,
          slice := sliceJS text s m, continuation := none } := by
  simp only [paginate]
  rw [if_neg (by omega : ¬ s ≥ List.length text), if_neg hne]
  by_cases hc : (sliceJS text s m).length = m ∧ s + (sliceJS text s m).length < text.length
  · rw [if_pos ⟨hc.1, by have := hc.2; omega⟩, if_pos hc]
  · rw [if_neg ?_, if_neg hc]
    intro h
    exact hc ⟨h.1, by have := h.2; omega⟩

theorem paginate_slice (text : JSString) (s m : Nat) :
    (paginate text s m).slice = sliceJS text s m := by
  by_cases hs : s < text.length
  · by_cases hm : 1 ≤ m
    · rw [paginate_of_lt hs (sliceJS_ne_nil hs hm)]
      split <;> rfl
    · have hm0 : m = 0 := by omega
      subst hm0
      rw [paginate_of_nil hs (by simp [sliceJS])]
      simp [sliceJS]
  · rw [paginate_of_le (by omega), sliceJS_eq_nil_of_le (by omega)]

theorem fetchToolHandler_valid (req : FetchRequest) (net : NetworkResult)
    (hp : req.protocol = "http:".toList ∨ req.protocol = "https:".toList) :
    fetchToolHandler req net =
      { text := (fetchUrlContent net.pageRaw net.contentType req.raw net.extraction).2
          ++ "Contents of ".toList ++ req.url ++ ":\n".toList
          ++ (paginate (fetchUrlContent net.pageRaw net.contentType req.raw net.extraction).1
                req.start_index req.max_length).text,
        isError := false } := by
  simp only [fetchToolHandler]
  rw [if_neg (not_not_intro hp)]

theorem fetchToolHandler_invalid (req : FetchRequest) (net : NetworkResult)
    (hp : ¬(req.protocol = "http:".toList ∨ req.protocol = "https:".toList)) :
    fetchToolHandler req net =
      { text := "Failed to fetch content: ".toList ++ schemeErrorMsg, isError := true } := by
  simp only [fetchToolHandler]
  rw [if_pos hp]

/-- C1: for `0 ≤ startIndex < length(text)` and a `maxLength` respecting the
caller contract (`1 ≤ maxLength`), the paginated output carries a continuation
descriptor naming `nextStartIndex = startIndex + length(slice)` iff
`length(slice) = maxLength` and `startIndex + length(slice) < length(text)`. -/
theorem fetch_C1 (text : JSString) (s m : Nat) (hm : 1 ≤ m) (hs : s < text.length) :
    (paginate text s m).continuation =
      if (sliceJS text s m).length = m ∧ s + (sliceJS text s m).length < text.length
      then some (s + (sliceJS text s m).length)
      else none := by
  rw [paginate_of_lt hs (sliceJS_ne_nil hs hm)]
  split <;> rfl

theorem fetch_C1_witness :
    ((1 : Nat) ≤ 3 ∧ 0 < ("abcdef".toList : JSString).length) ∧
    (paginate "abcdef".toList 0 3).continuation =
      (if (sliceJS "abcdef".toList 0 3).length = 3 ∧
          0 + (sliceJS "abcdef".toList 0 3).length < ("abcdef".toList : JSString).length
       then some (0 + (sliceJS "abcdef".toList 0 3).length)
       else none) :=
  ⟨⟨by decide, by decide⟩, fetch_C1 "abcdef".toList 0 3 (by decide) (by decide)⟩

/-- C2: for `0 ≤ startIndex < length(text)` under the caller contract
`1 ≤ maxLength`, pagination returns a genuine (non-sentinel) slice of length
`min maxLength (length(text) - startIndex)`. -/
theorem fetch_C2 (text : JSString) (s m : Nat) (hm : 1 ≤ m) (hs : s < text.length) :
    (paginate text s m).isSentinel = false ∧
    (paginate text s m).slice.length = min m (text.length - s) := by
  rw [paginate_of_lt hs (sliceJS_ne_nil hs hm)]
  constructor
  · split <;> rfl
  · split <;> simp [sliceJS_length]

theorem fetch_C2_witness :
    ((1 : Nat) ≤ 3 ∧ 4 < ("abcdef".toList : JSString).length) ∧
    ((paginate "abcdef".toList 4 3).isSentinel = false ∧
     (paginate "abcdef".toList 4 3).slice.length =
       min 3 (("abcdef".toList : JSString).length - 4)) :=
  ⟨⟨by decide, by decide⟩, fetch_C2 "abcdef".toList 4 3 (by decide) (by decide)⟩

/-- C3: for `startIndex ≥ length(content)` the handler embeds the fixed
"no more content" sentinel in an ordinary successful (`isError = false`)
response rather than failing. -/
theorem fetch_C3 (req : FetchRequest) (net : NetworkResult)
    (hp : req.protocol = "http:".toList ∨ req.protocol = "https:".toList)
    (hs : (fetchUrlContent net.pageRaw net.contentType req.raw net.extraction).1.length
            ≤ req.start_index) :
    (fetchToolHandler req net).isError = false ∧
    paginate (fetchUrlContent net.pageRaw net.contentType req.raw net.extraction).1
        req.start_index req.max_length
      = { text := noMoreContent, isSentinel := true, slice := [], continuation := none } ∧
    (fetchToolHandler req net).text =
      (fetchUrlContent net.pageRaw net.contentType req.raw net.extraction).2
        ++ "Contents of ".toList ++ req.url ++ ":\n".toList ++ noMoreContent := by
  refine ⟨?_, paginate_of_le hs, ?_⟩
  · rw [fetchToolHandler_valid req net hp]
  · rw [fetchToolHandler_valid req net hp, paginate_of_le hs]

theorem fetch_C3_witness :
    ((⟨"http:".toList, "http://x".toList, 5, 10, false⟩ : FetchRequest).protocol
        = "http:".toList ∨
     (⟨"http:".toList, "http://x".toList, 5, 10, false⟩ : FetchRequest).protocol
        = "https:".toList) ∧
    ((fetchToolHandler ⟨"http:".toList, "http://x".toList, 5, 10, false⟩
        ⟨"ab".toList, "text/html".toList, ExtractionPipelineOutcome.markdown "ab".toList⟩).isError
      = false) :=
  ⟨Or.inl rfl,
   (fetch_C3 ⟨"http:".toList, "http://x".toList, 5, 10, false⟩
      ⟨"ab".toList, "text/html".toList, ExtractionPipelineOutcome.markdown "ab".toList⟩
      (Or.inl rfl) (by decide)).1⟩

/-- C4 counterexample: `startIndex = 0 < 1 = length(" ")` is in range and the
slice `" "` is empty after trimming (all whitespace), yet the code returns the
whitespace slice itself, not the "no more content" sentinel: the source tests
`!truncatedContent`, which does not trim. -/
theorem fetch_C4_counterexample :
    0 < ([' '] : JSString).length ∧
    (sliceJS [' '] 0 1).all Char.isWhitespace = true ∧
    sliceJS [' '] 0 1 ≠ [] ∧
    paginate [' '] 0 1 =
      { text := [' '], isSentinel := false, slice := [' '], continuation := none } := by
  decide

/-- C4 (amended): in the paginator, for an in-range `startIndex`, if the slice
`text[startIndex : startIndex+maxLength]` is empty (without any trimming), the
"no more content" sentinel is returned instead of the slice. -/
theorem fetch_C4 (text : JSString) (s m : Nat) (hs : s < text.length)
    (hempty : sliceJS text s m = []) :
    paginate text s m =
      { text := noMoreContent, isSentinel := true, slice := [], continuation := none } :=
  paginate_of_nil hs hempty

theorem fetch_C4_witness :
    ((0 : Nat) < ("ab".toList : JSString).length ∧ sliceJS "ab".toList 0 0 = []) ∧
    paginate "ab".toList 0 0 =
      { text := noMoreContent, isSentinel := true, slice := [], continuation := none } :=
  ⟨⟨by decide, by decide⟩, fetch_C4 "ab".toList 0 0 (by decide) (by decide)⟩

/-- C5 counterexample: the body `"<HTML>x"` contains the root-tag opener in
upper case within its first 100 characters (case-insensitively, its
lowercasing contains `"<html"`), yet with a non-markup declared content type
the classifier returns `Other`: the `includes("<html")` check in the
source is case-sensitive. -/
theorem fetch_C5_counterexample :
    includesJS (("<HTML>x".toList.map Char.toLower).take 100) "<html".toList = true ∧
    classify "<HTML>x".toList "application/json".toList = ContentKind.Other := by
  decide

/-- C5 (amended): the first classifier rule is case-sensitive: for every
input whose first 100 characters contain the lower-case root-tag opener
`"<html"`, classify returns `Markup` under that rule, whatever the declared
content type. -/
theorem fetch_C5 (pageRaw contentType : JSString)
    (h : includesJS (pageRaw.take 100) "<html".toList = true) :
    classify pageRaw contentType = ContentKind.Markup := by
  simp only [classify, isPageHtml, h, Bool.true_or, if_true]

theorem fetch_C5_witness :
    includesJS (("<html>x".toList : JSString).take 100) "<html".toList = true ∧
    classify "<html>x".toList "application/json".toList = ContentKind.Markup :=
  ⟨by decide, fetch_C5 "<html>x".toList "application/json".toList (by decide)⟩

/-- C6 counterexample: the declared content type `"application/json"` is a
non-markup media type (it does not contain `"text/html"` and is non-empty),
yet because the first 100 body characters contain `"<html"` the classifier
returns `Markup`, not `Other`: the body check runs first and overrides the
declared type. -/
theorem fetch_C6_counterexample :
    includesJS "application/json".toList "text/html".toList = false ∧
    "application/json".toList ≠ ([] : JSString) ∧
    classify "<html>x".toList "application/json".toList = ContentKind.Markup := by
  decide

/-- C6 (amended): for every input whose declared content type is a non-markup
media type, the classifier returns `Other` provided the first 100 body
characters do not contain the (lower-case) markup root-tag opener. -/
theorem fetch_C6 (pageRaw contentType : JSString)
    (h1 : includesJS contentType "text/html".toList = false)
    (h2 : contentType ≠ ([] : JSString))
    (h3 : includesJS (pageRaw.take 100) "<html".toList = false) :
    classify pageRaw contentType = ContentKind.Other := by
  simp only [classify, isPageHtml, h1, h3, Bool.false_or, decide_eq_true_eq]
  rw [if_neg]
  simp [h2]

theorem fetch_C6_witness :
    (includesJS ("application/json".toList : JSString) "text/html".toList = false ∧
     ("application/json".toList : JSString) ≠ [] ∧
     includesJS (("plain text".toList : JSString).take 100) "<html".toList = false) ∧
    classify "plain text".toList "application/json".toList = ContentKind.Other :=
  ⟨⟨by decide, by decide, by decide⟩,
   fetch_C6 "plain text".toList "application/json".toList (by decide) (by decide) (by decide)⟩

/-- C7: for a request whose URL scheme is neither `http` nor `https`, the
handler fails with the message "Only HTTP and HTTPS URLs are supported", and
the response is completely independent of anything the network would have
returned — no network data is consulted. -/
theorem fetch_C7 (req : FetchRequest) (net net' : NetworkResult)
    (h : ¬(req.protocol = "http:".toList ∨ req.protocol = "https:".toList)) :
    (fetchToolHandler req net).isError = true ∧
    (fetchToolHandler req net).text =
      "Failed to fetch content: ".toList ++ schemeErrorMsg ∧
    schemeErrorMsg = "Only HTTP and HTTPS URLs are supported".toList ∧
    fetchToolHandler req net = fetchToolHandler req net' := by
  rw [fetchToolHandler_invalid req net h, fetchToolHandler_invalid req net' h]
  exact ⟨rfl, rfl, rfl, rfl⟩

theorem fetch_C7_witness :
    (¬((⟨"ftp:".toList, "ftp://x".toList, 5000, 0, false⟩ : FetchRequest).protocol
          = "http:".toList ∨
       (⟨"ftp:".toList, "ftp://x".toList, 5000, 0, false⟩ : FetchRequest).protocol
          = "https:".toList)) ∧
    (fetchToolHandler ⟨"ftp:".toList, "ftp://x".toList, 5000, 0, false⟩
        ⟨"aaa".toList, "text/plain".toList, ExtractionPipelineOutcome.noArticle⟩).isError
      = true ∧
    fetchToolHandler ⟨"ftp:".toList, "ftp://x".toList, 5000, 0, false⟩
        ⟨"aaa".toList, "text/plain".toList, ExtractionPipelineOutcome.noArticle⟩
      = fetchToolHandler ⟨"ftp:".toList, "ftp://x".toList, 5000, 0, false⟩
          ⟨"bbb".toList, "".toList, ExtractionPipelineOutcome.threw⟩ :=
  ⟨by decide,
   (fetch_C7 ⟨"ftp:".toList, "ftp://x".toList, 5000, 0, false⟩
      ⟨"aaa".toList, "text/plain".toList, ExtractionPipelineOutcome.noArticle⟩
      ⟨"bbb".toList, "".toList, ExtractionPipelineOutcome.threw⟩ (by decide)).1,
   (fetch_C7 ⟨"ftp:".toList, "ftp://x".toList, 5000, 0, false⟩
      ⟨"aaa".toList, "text/plain".toList, ExtractionPipelineOutcome.noArticle⟩
      ⟨"bbb".toList, "".toList, ExtractionPipelineOutcome.threw⟩ (by decide)).2.2.2⟩

/-- C8: with `raw = true` the extraction/conversion stages are bypassed:
`fetchUrl` hands the unmodified fetched text with a non-empty explanatory
prefix to the same pagination arithmetic, so the returned slice is a
substring `text[startIndex : startIndex+maxLength]` of the fetched text. -/
theorem fetch_C8 (req : FetchRequest) (net : NetworkResult)
    (hp : req.protocol = "http:".toList ∨ req.protocol = "https:".toList)
    (hraw : req.raw = true) :
    fetchUrlContent net.pageRaw net.contentType req.raw net.extraction
      = (net.pageRaw, rawContentNote net.contentType) ∧
    rawContentNote net.contentType ≠ [] ∧
    (fetchToolHandler req net).text =
      rawContentNote net.contentType ++ "Contents of ".toList ++ req.url ++ ":\n".toList
        ++ (paginate net.pageRaw req.start_index req.max_length).text ∧
    (paginate net.pageRaw req.start_index req.max_length).slice
      = sliceJS net.pageRaw req.start_index req.max_length := by
  have hfu : fetchUrlContent net.pageRaw net.contentType req.raw net.extraction
      = (net.pageRaw, rawContentNote net.contentType) := by
    simp [fetchUrlContent, hraw]
  have hct : ("Content type ".toList : JSString) ≠ [] := by decide
  refine ⟨hfu, ?_, ?_, paginate_slice _ _ _⟩
  · intro hnil
    rw [rawContentNote, List.append_assoc, List.append_eq_nil] at hnil
    exact hct hnil.1
  · rw [fetchToolHandler_valid req net hp, hfu]

theorem fetch_C8_witness :
    (((⟨"https:".toList, "https://x".toList, 3, 0, true⟩ : FetchRequest).protocol
        = "http:".toList ∨
      (⟨"https:".toList, "https://x".toList, 3, 0, true⟩ : FetchRequest).protocol
        = "https:".toList) ∧
     (⟨"https:".toList, "https://x".toList, 3, 0, true⟩ : FetchRequest).raw = true) ∧
    fetchUrlContent "abcdef".toList "text/plain".toList
        (⟨"https:".toList, "https://x".toList, 3, 0, true⟩ : FetchRequest).raw
        ExtractionPipelineOutcome.noArticle
      = ("abcdef".toList, rawContentNote "text/plain".toList) :=
  ⟨⟨Or.inr rfl, rfl⟩,
   (fetch_C8 ⟨"https:".toList, "https://x".toList, 3, 0, true⟩
      ⟨"abcdef".toList, "text/plain".toList, ExtractionPipelineOutcome.noArticle⟩
      (Or.inr rfl) rfl).1⟩

/-- C9: whenever the paginated output carries a continuation naming `n`, then
`0 < n < length(text)`, and a follow-up call on the same text at `start_index
= n` (with any `max_length` respecting the caller contract) returns a genuine
non-empty slice, never the "no more content" sentinel. -/
theorem fetch_C9 (text : JSString) (s m n mq : Nat) (hmq : 1 ≤ mq)
    (hc : (paginate text s m).continuation = some n) :
    0 < n ∧ n < text.length ∧
    (paginate text n mq).isSentinel = false ∧
    (paginate text n mq).slice ≠ [] := by
  by_cases hs : s < text.length
  · by_cases hne : sliceJS text s m = []
    · rw [paginate_of_nil hs hne] at hc
      cases hc
    · rw [paginate_of_lt hs hne] at hc
      by_cases hcond : (sliceJS text s m).length = m ∧
          s + (sliceJS text s m).length < text.length
      · rw [if_pos hcond] at hc
        have hn : n = s + (sliceJS text s m).length := (Option.some.injEq _ _).mp hc.symm
        have hpos : 0 < (sliceJS text s m).length := List.length_pos.mpr hne
        have hn_lt : n < text.length := by omega
        have hne2 := sliceJS_ne_nil hn_lt hmq
        refine ⟨by omega, hn_lt, ?_, ?_⟩
        · rw [paginate_of_lt hn_lt hne2]
          split <;> rfl
        · rw [paginate_of_lt hn_lt hne2]
          split <;> exact hne2
      · rw [if_neg hcond] at hc
        cases hc
  · rw [paginate_of_le (by omega)] at hc
    cases hc

theorem fetch_C9_witness :
    ((1 : Nat) ≤ 3 ∧ (paginate ("abcdef".toList : JSString) 0 3).continuation = some 3) ∧
    (0 < 3 ∧ 3 < ("abcdef".toList : JSString).length ∧
     (paginate "abcdef".toList 3 3).isSentinel = false ∧
     (paginate "abcdef".toList 3 3).slice ≠ []) :=
  ⟨⟨by decide, by decide⟩, fetch_C9 "abcdef".toList 0 3 3 3 (by decide) (by decide)⟩

/-- C10: when the external parse/extract/convert pipeline throws, the catch
block inside `extractContentFromHtml` maps the exception to the fixed marker
"<error>Failed to extract content from HTML</error>" (distinct from the
no-candidate marker), the tool call still completes with `isError = false`,
and the marker is paginated as ordinary content. -/
theorem fetch_C10 (req : FetchRequest) (net : NetworkResult)
    (hp : req.protocol = "http:".toList ∨ req.protocol = "https:".toList)
    (hraw : req.raw = false)
    (hhtml : isPageHtml net.pageRaw net.contentType = true)
    (hex : net.extraction = ExtractionPipelineOutcome.threw) :
    extractContentFromHtml net.extraction = extractionFailedMarker ∧
    extractionFailedMarker ≠ noCandidateMarker ∧
    (fetchToolHandler req net).isError = false ∧
    (fetchToolHandler req net).text =
      "Contents of ".toList ++ req.url ++ ":\n".toList
        ++ (paginate extractionFailedMarker req.start_index req.max_length).text := by
  have hfu : fetchUrlContent net.pageRaw net.contentType req.raw net.extraction
      = (extractionFailedMarker, []) := by
    simp [fetchUrlContent, hraw, hhtml, hex, extractContentFromHtml]
  refine ⟨by rw [hex]; rfl, by decide, ?_, ?_⟩
  · rw [fetchToolHandler_valid req net hp]
  · rw [fetchToolHandler_valid req net hp, hfu]
    simp

theorem fetch_C10_witness :
    (((⟨"http:".toList, "http://x".toList, 5000, 0, false⟩ : FetchRequest).protocol
        = "http:".toList ∨
      (⟨"http:".toList, "http://x".toList, 5000, 0, false⟩ : FetchRequest).protocol
        = "https:".toList) ∧
     (⟨"http:".toList, "http://x".toList, 5000, 0, false⟩ : FetchRequest).raw = false ∧
     isPageHtml ("<html>x".toList : JSString) "text/html".toList = true) ∧
    ((fetchToolHandler ⟨"http:".toList, "http://x".toList, 5000, 0, false⟩
        ⟨"<html>x".toList, "text/html".toList, ExtractionPipelineOutcome.threw⟩).isError
      = false) :=
  ⟨⟨Or.inl rfl, rfl, by decide⟩,
   (fetch_C10 ⟨"http:".toList, "http://x".toList, 5000, 0, false⟩
      ⟨"<html>x".toList, "text/html".toList, ExtractionPipelineOutcome.threw⟩
      (Or.inl rfl) rfl (by decide) rfl).2.2.1⟩

end FetchMCP
